import Mathlib

/-
Verification of the media-server-diff report generator (src/main.rs).

The development shallowly embeds the program's pure core:

* `format_duration` and `format_bit_rate` are the two formatting routines,
  translated line by line from src/main.rs (lines 151-174 and 140-148).
* `should_inspect_file` is the walk filter (lines 135-137); the possible
  panic of `Option::unwrap` on a non-UTF-8 file name is made explicit as an
  `Except String` result, and Rust's short-circuiting `&&` is kept.
* `analyze_path` (lines 67-129) is embedded over a `Container` value that
  stands for the data the external ffmpeg library returns for an opened
  file; the open step itself is IO, so it enters the embedding as an
  `Except Unit Container` argument.  The function returns the optional
  summary string together with the list of lines the source writes to
  standard output via `println!` while probing.
* `generate_report` (lines 33-60) is embedded from the point where the
  candidate path list has been collected: the walker is IO, so the filtered
  path list and the per-path probe outcome are arguments.  Lines 54-59 are
  the part translated: probe every path, drop failures, join with newlines,
  and wrap the join in `Some` unconditionally.
-/

namespace MediaServerDiff

/-- Model of Rust `std::time::Duration`: whole seconds and subsecond
nanoseconds.  (Rust guarantees `subsec_nanos < 10^9`; no claim needs the
bound, so the field is a plain `Nat`.) -/
structure Duration where
  secs : Nat
  nanos : Nat
deriving DecidableEq

/-- Rust `Duration::from_micros`: `secs = micros / 10^6`,
`subsec_nanos = (micros % 10^6) * 1000`. -/
def Duration.from_micros (micros : Nat) : Duration :=
  ⟨micros / 1000000, micros % 1000000 * 1000⟩

/-- Rust's `format!` with the `{:02}` specifier on an unsigned integer:
pad with zeros to at least two digits. -/
def pad2 (n : Nat) : String :=
  if n < 10 then "0" ++ toString n else toString n

/-- The fractional suffix of `format_duration` (src/main.rs lines 169-171).
The source computes `duration.subsec_nanos() as f64 * 1e-7`, appends a
suffix when that product is strictly positive, and truncates the product to
`u64` for the rendered digits.  Over the `u32` nanosecond domain the product
is positive exactly when `nanos > 0` (no underflow can occur), and the
truncation equals `nanos / 10^7`: the combined relative error of the two
IEEE-754 roundings is below `3e-14`, far smaller than the `10^-7` distance
from `nanos / 10^7` to the nearest integer crossing for non-multiples of
`10^7`, and each of the 99 exact multiples of `10^7` below `10^9` rounds to
a product that is at least its exact value, so the floor never drops. -/
def frac_suffix (nanos : Nat) : String :=
  if nanos > 0 then "." ++ toString (nanos / 10000000) else ""

/-- `format_duration` (src/main.rs lines 151-174): decompose into minutes,
hours, days; emit the days and hours segments conditionally and the minutes
and seconds segments always, in the source's `push_str` order. -/
def format_duration (duration : Duration) : String :=
  let minutes := duration.secs / 60
  let hours := minutes / 60
  let days := hours / 24
  (if days > 0 then pad2 days ++ ":" else "")
    ++ (if hours > 0 then pad2 (hours % 24) ++ ":" else "")
    ++ pad2 (minutes % 60) ++ ":"
    ++ pad2 (duration.secs % 60)
    ++ frac_suffix duration.nanos

/-- Round `num / den` to the nearest integer, ties to even — the rounding
IEEE-754 applies at every arithmetic step and the rounding Rust's float
`Display` applies to the final digit when a precision is requested. -/
def round_half_even (num den : Nat) : Nat :=
  let q := num / den
  let r := num % den
  if 2 * r < den then q
  else if den < 2 * r then q + 1
  else if q % 2 = 0 then q else q + 1

/-- Fuel-driven binary logarithm so that concrete instances reduce inside
the kernel (`Nat.log2` is defined by well-founded recursion and does not). -/
def log2_aux : Nat → Nat → Nat
  | 0, _ => 0
  | fuel + 1, n => if 2 ≤ n then log2_aux fuel (n / 2) + 1 else 0

/-- `⌊log2 n⌋` for `n ≥ 1` (and `0` at `0`): `n` itself is always enough
fuel, since each round at least halves the argument. -/
def nat_log2 (n : Nat) : Nat :=
  log2_aux n n

/-- Rust's `as f64` conversion of a non-negative integer: round to the
nearest IEEE-754 double, ties to even.  An integer of at most 53 bits is
exact; a longer one is rounded to a multiple of `2 ^ (k - 52)` where `k` is
its floor logarithm, which is exactly the rounding to 53 significant bits
that IEEE-754 prescribes (the binade's unit in the last place is
`2 ^ (k - 52)`, and mantissa parity equals the parity of the multiple).
The result is the mathematically exact value of the double, as a `Nat`
(the rounded integer is always exact in 53 bits, a carry landing on the
next power of two). -/
def f64_of_nat (n : Nat) : Nat :=
  let k := nat_log2 n
  if k ≤ 52 then n
  else round_half_even n (2 ^ (k - 52)) * 2 ^ (k - 52)

/-- IEEE-754 double division `a / den` (round to nearest, ties to even)
for `den ≤ a`, returned as the exact dyadic value `numerator / 2-power`:
with `k` the quotient's floor logarithm, the correctly rounded double is
the nearest multiple of `2 ^ (k - 52)`, ties to even.  Both `format_bit_rate`
call sites divide a value that exceeds the divisor (the rate is above the
threshold and `as f64` moves it by less than one part in `2^53`), so the
quotient stays in `[1, 2^64)` and no subnormal or overflow handling is
needed; the `a < den` branch returns the exact fraction and is unreachable
from `format_bit_rate`. -/
def f64_div (a den : Nat) : Nat × Nat :=
  if a < den then (a, den)
  else
    let k := nat_log2 (a / den)
    if k ≤ 52 then
      (round_half_even (a * 2 ^ (52 - k)) den, 2 ^ (52 - k))
    else
      (round_half_even a (den * 2 ^ (k - 52)) * 2 ^ (k - 52), 1)

/-- Rust's `format!` with the `{:.2}` specifier applied to a double whose
exact value is `p / s`: Rust's float formatting with a requested precision
prints the correctly rounded decimal of the exact binary value, ties to
even, so the printed digits are `p * 100 / s` rounded half-even, with two
digits after the point. -/
def rust_two_decimals (p s : Nat) : String :=
  let scaled := round_half_even (p * 100) s
  toString (scaled / 100) ++ "." ++ pad2 (scaled % 100)

/-- `format_bit_rate` (src/main.rs lines 140-148): strict `>` thresholds at
`1_000_000` and `1000`; the argument is the `i64` bit rate, so it is an
`Int` here.  The scaled branches perform `(bit_rate as f64) / 1_000_000.0`
(resp. `/ 1_000.0`) and print with `{:.2}`; both divisors are exactly
representable doubles, so the pipeline is one `as f64` rounding, one
correctly rounded division, and one correctly rounded decimal rendering,
each modelled exactly above.  In these branches the rate is positive, so
`Int.toNat` loses nothing. -/
def format_bit_rate (bit_rate : Int) : String :=
  if bit_rate > 1000000 then
    let q := f64_div (f64_of_nat bit_rate.toNat) 1000000
    rust_two_decimals q.1 q.2 ++ " MB/s"
  else if bit_rate > 1000 then
    let q := f64_div (f64_of_nat bit_rate.toNat) 1000
    rust_two_decimals q.1 q.2 ++ " KB/s"
  else toString bit_rate ++ " B/s"

/-- Rust `str::ends_with` on a string suffix: the suffix's characters end
the string.  (For valid UTF-8 — which both sides are, the name having
survived `to_str` — byte-suffix equality and character-suffix equality
coincide, because the suffix's leading byte is never a continuation byte,
so a byte-level match always splits on a character boundary.) -/
def str_ends_with (s suffix : String) : Bool :=
  suffix.data.isSuffixOf s.data

/-- Rust `str::starts_with` on a string pattern, character-wise (see
`str_ends_with` for why this coincides with Rust's byte-wise test). -/
def str_starts_with (s pattern : String) : Bool :=
  pattern.data.isPrefixOf s.data

/-- Model of a `walkdir::DirEntry` as the filter consumes it:
whether `entry.file_type().is_dir()` holds, and `entry.file_name()` as an
optional string — `none` models an `OsStr` that is not valid UTF-8, for
which Rust's `to_str()` returns `None`. -/
structure DirEntry where
  file_type_is_dir : Bool
  file_name : Option String
deriving DecidableEq

/-- `should_inspect_file` (src/main.rs lines 135-137):
`!entry.file_type().is_dir() && !entry.file_name().to_str().unwrap().ends_with(".nfo")`.
Rust's `&&` short-circuits, so the `unwrap` only runs for non-directories;
its panic on a non-UTF-8 name is modelled as an `Except.error` carrying the
panic message. -/
def should_inspect_file (entry : DirEntry) : Except String Bool :=
  if !entry.file_type_is_dir then
    match entry.file_name with
    | some name => .ok (!(str_ends_with name ".nfo"))
    | none => .error "called Option::unwrap() on a None value"
  else
    .ok false

/-- Model of one ffmpeg stream as `analyze_path` consumes it: its index,
its rate (the numeral the source's `format!` renders), and its metadata
pairs (iterated only for debug logging). -/
structure Stream where
  index : Nat
  rate : Int
  metadata : List (String × String)
deriving DecidableEq

/-- Model of an opened ffmpeg input context: the declared MIME types, the
container duration in microseconds (`i64`), the bit rate (`i64`), the best
video and audio streams as selected by the library's own heuristic, and the
full stream list (iterated only for debug logging). -/
structure Container where
  mime_types : List String
  duration : Int
  bit_rate : Int
  best_video : Option Stream
  best_audio : Option Stream
  streams : List Stream
deriving DecidableEq

/-- The MIME predicate of src/main.rs lines 72-75: the type starts with
`audio` or `video`. -/
def mime_is_av (mime_type : String) : Bool :=
  str_starts_with mime_type "audio" || str_starts_with mime_type "video"

/-- The duration conversion of src/main.rs lines 78-82:
`Duration::from_micros(context.duration().try_into().unwrap_or(0))`.
`try_into::<u64>` on an `i64` fails exactly on negative values, so the
converted count of microseconds is `Int.toNat` of the raw duration. -/
def duration_from_context (d : Int) : Duration :=
  Duration.from_micros d.toNat

/-- `analyze_path` (src/main.rs lines 67-129).  The `path` argument is the
display form of the path (`to_string_lossy`); `input` is the outcome of
`ffmpeg::format::input(path)`.  The result pairs the optional summary
string with the lines the source prints to standard output via `println!`
while probing (both best-stream branches print `Best video stream index`,
including the audio one — faithful to the source's copy-paste).  The MIME
check of lines 72-75 is computed and then discarded, exactly as the
source's empty `if` body does; `debug!`/`warn!` lines go to the log sink,
not to standard output, and so do not appear here. -/
def analyze_path (path : String) (input : Except Unit Container) :
    Option String × List String :=
  match input with
  | .error _ => (none, [])
  | .ok context =>
      let _mime_ok := context.mime_types.any mime_is_av
      let file_name := path
      let duration := format_duration (duration_from_context context.duration)
      let bit_rate := format_bit_rate context.bit_rate
      let video_part : List String × List String :=
        match context.best_video with
        | some stream =>
            (["Best video stream index: " ++ toString stream.index],
             ["Video: " ++ toString stream.rate ++ " kb/s"])
        | none => ([], [])
      let audio_part : List String × List String :=
        match context.best_audio with
        | some stream =>
            (["Best video stream index: " ++ toString stream.index],
             ["Audio: " ++ toString stream.rate ++ " kb/s"])
        | none => ([], [])
      let stream_descriptions := video_part.2 ++ audio_part.2
      (some (file_name ++ "\n\tDuration: " ++ duration
          ++ "\n\tBit rate: " ++ bit_rate
          ++ "\n\t" ++ String.intercalate "\n\t" stream_descriptions),
       video_part.1 ++ audio_part.1)

/-- The aggregation stage of `generate_report` (src/main.rs lines 54-59):
probe every candidate path, drop the failures, join the survivors with
newlines, and return `Some` of the join unconditionally.  (`rayon`'s
`par_iter().filter_map(..).collect()` preserves the input order, so the
parallel collection is the sequential `filterMap`.)  The walker and the
probe are IO, so they enter as the candidate list and the probe-outcome
function. -/
def generate_report (probe : String → Option String) (paths : List String) :
    Option String :=
  some (String.intercalate "\n" (paths.filterMap probe))

/-- The printing step of `main` (src/main.rs lines 28-31): the lines main
writes to standard output given the report — the report when it is present,
nothing when it is absent. -/
def main_prints (report : Option String) : List String :=
  match report with
  | some file_contents => [file_contents]
  | none => []

/-- C1: `format_duration` follows the rendering rule — a two-digit days
prefix only if `days > 0`, a two-digit hours segment only if total hours
`> 0` with rendered value `hours % 24`, and the two-digit `minutes % 60`
and `seconds % 60` segments always — and in particular maps `0s` to
`00:00`, `60s` to `01:00`, `3600s` to `01:00:00`, `86400s` to
`01:00:00:00`, and `115197s` to `01:07:59:57`. -/
theorem c1_format_duration_rendering :
    (∀ d : Duration,
        format_duration d =
          (if d.secs / 60 / 60 / 24 > 0 then pad2 (d.secs / 60 / 60 / 24) ++ ":" else "")
            ++ (if d.secs / 60 / 60 > 0 then pad2 (d.secs / 60 / 60 % 24) ++ ":" else "")
            ++ pad2 (d.secs / 60 % 60) ++ ":"
            ++ pad2 (d.secs % 60)
            ++ frac_suffix d.nanos)
    ∧ format_duration ⟨0, 0⟩ = "00:00"
    ∧ format_duration ⟨60, 0⟩ = "01:00"
    ∧ format_duration ⟨3600, 0⟩ = "01:00:00"
    ∧ format_duration ⟨86400, 0⟩ = "01:00:00:00"
    ∧ format_duration ⟨115197, 0⟩ = "01:07:59:57" := by
  refine ⟨fun d => rfl, ?_, ?_, ?_, ?_, ?_⟩ <;> rfl

/-- The embedded formatter reproduces the program on the doubly rounded
`f64` inputs: the double nearest `1.015` is `1.01499999999999990…`, so the
program prints `1.01 KB/s` at a rate of `1015`, and so does the model. -/
theorem format_bit_rate_at_1015 : format_bit_rate 1015 = "1.01 KB/s" := rfl

/-- The MB branch behaves the same way at a rate of `1015000`: the double
quotient falls just below `1.015`, so the program and the model print
`1.01 MB/s`, not `1.02 MB/s`. -/
theorem format_bit_rate_at_1015000 : format_bit_rate 1015000 = "1.01 MB/s" := rfl

/-- C2: `format_bit_rate` selects its unit by strict `>` comparisons —
above `1_000_000` the MB/s form (the `{:.2}`-rendered `f64` quotient by
`10^6`), above `1000` and at most `1_000_000` the KB/s form, and everything
else (including exactly `1000`, zero, and negatives) the plain `"{r} B/s"`
form — with the four concrete examples of the spec. -/
theorem c2_format_bit_rate_units :
    (∀ r : Int,
        (1000000 < r →
          format_bit_rate r
            = rust_two_decimals (f64_div (f64_of_nat r.toNat) 1000000).1
                (f64_div (f64_of_nat r.toNat) 1000000).2 ++ " MB/s")
        ∧ (1000 < r ∧ r ≤ 1000000 →
          format_bit_rate r
            = rust_two_decimals (f64_div (f64_of_nat r.toNat) 1000).1
                (f64_div (f64_of_nat r.toNat) 1000).2 ++ " KB/s")
        ∧ (r ≤ 1000 → format_bit_rate r = toString r ++ " B/s"))
    ∧ format_bit_rate 12000000 = "12.00 MB/s"
    ∧ format_bit_rate 12000 = "12.00 KB/s"
    ∧ format_bit_rate 12 = "12 B/s"
    ∧ format_bit_rate 1000 = "1000 B/s" := by
  refine ⟨fun r => ⟨?_, ?_, ?_⟩, rfl, rfl, rfl, rfl⟩
  · intro h
    simp [format_bit_rate, h]
  · rintro ⟨h1, h2⟩
    have hn : ¬ (1000000 < r) := not_lt.mpr h2
    simp [format_bit_rate, hn, h1]
  · intro h
    have h1 : ¬ (1000000 < r) := by omega
    have h2 : ¬ (1000 < r) := not_lt.mpr h
    simp [format_bit_rate, h1, h2]

/-- Witness for C2: the three unit branches hold at the concrete rates
`2_000_000`, `1015` (the doubly rounded value), and `-5`. -/
theorem c2_format_bit_rate_units_witness :
    format_bit_rate 2000000
        = rust_two_decimals (f64_div (f64_of_nat (Int.toNat 2000000)) 1000000).1
            (f64_div (f64_of_nat (Int.toNat 2000000)) 1000000).2 ++ " MB/s"
    ∧ format_bit_rate 1015
        = rust_two_decimals (f64_div (f64_of_nat (Int.toNat 1015)) 1000).1
            (f64_div (f64_of_nat (Int.toNat 1015)) 1000).2 ++ " KB/s"
    ∧ format_bit_rate (-5) = toString (-5 : Int) ++ " B/s" :=
  ⟨(c2_format_bit_rate_units.1 2000000).1 (by decide),
   (c2_format_bit_rate_units.1 1015).2.1 ⟨by decide, by decide⟩,
   (c2_format_bit_rate_units.1 (-5)).2.2 (by decide)⟩

/-- C10: every `format_duration` result has one of exactly three segment
shapes — `MM:SS`, `HH:MM:SS`, or `DD:HH:MM:SS`, each followed by the
(possibly empty) fractional suffix — and a days segment never appears
without an hours segment, because positive days force positive total
hours. -/
theorem c10_segment_shapes (d : Duration) :
    (d.secs / 60 / 60 = 0 ∧ d.secs / 60 / 60 / 24 = 0 ∧
      format_duration d
        = pad2 (d.secs / 60 % 60) ++ ":" ++ pad2 (d.secs % 60)
            ++ frac_suffix d.nanos)
    ∨ (0 < d.secs / 60 / 60 ∧ d.secs / 60 / 60 / 24 = 0 ∧
      format_duration d
        = pad2 (d.secs / 60 / 60 % 24) ++ ":" ++ pad2 (d.secs / 60 % 60) ++ ":"
            ++ pad2 (d.secs % 60) ++ frac_suffix d.nanos)
    ∨ (0 < d.secs / 60 / 60 ∧ 0 < d.secs / 60 / 60 / 24 ∧
      format_duration d
        = pad2 (d.secs / 60 / 60 / 24) ++ ":" ++ pad2 (d.secs / 60 / 60 % 24) ++ ":"
            ++ pad2 (d.secs / 60 % 60) ++ ":" ++ pad2 (d.secs % 60)
            ++ frac_suffix d.nanos) := by
  rcases Nat.eq_zero_or_pos (d.secs / 60 / 60 / 24) with hd | hd
  · rcases Nat.eq_zero_or_pos (d.secs / 60 / 60) with hh | hh
    · exact Or.inl ⟨hh, hd, by simp [format_duration, hh, hd, String.append_assoc]⟩
    · exact Or.inr (Or.inl ⟨hh, hd, by simp [format_duration, hh, hd, String.append_assoc]⟩)
  · have hh : 0 < d.secs / 60 / 60 := lt_of_lt_of_le hd (Nat.div_le_self _ _)
    exact Or.inr (Or.inr ⟨hh, hd, by simp [format_duration, hh, hd, String.append_assoc]⟩)

/-- C3 counterexample: on an empty candidate path sequence the aggregator
does not produce "no report at all" — it returns `some` of the empty
string, and `main` consequently prints an empty line to standard output. -/
theorem c3_empty_paths_counterexample :
    generate_report (fun _ => none) ([] : List String) = some ""
    ∧ main_prints (generate_report (fun _ => none) ([] : List String)) = [""] :=
  ⟨rfl, rfl⟩

/-- C3 amended: for every probe outcome, an empty candidate path sequence
yields `some ""` (an empty report string, not an absent report), and `main`
prints that empty string as one line. -/
theorem c3_empty_paths_amended :
    ∀ probe : String → Option String,
      generate_report probe [] = some ""
      ∧ main_prints (generate_report probe []) = [""] :=
  fun _ => ⟨rfl, rfl⟩

/-- A concrete best video stream for the C4 evaluation. -/
def sample_video_stream : Stream := ⟨0, 30, []⟩

/-- A concrete best audio stream for the C4 evaluation. -/
def sample_audio_stream : Stream := ⟨1, 48000, []⟩

/-- A concrete successfully opened container for the C4 evaluation. -/
def sample_container : Container :=
  ⟨["video/x-matroska"], 91000000, 12000, some sample_video_stream,
   some sample_audio_stream, [sample_video_stream, sample_audio_stream]⟩

/-- C4 evaluation at the failing input: probing a successfully opened file
with best video and audio streams writes two `println!` lines to standard
output (both labelled `Best video stream index`, the audio one included),
so the prober's side effects are not limited to log lines and standard
output does not carry only the final report. -/
theorem c4_stdout_println_leak :
    (analyze_path "sample.mkv" (.ok sample_container)).2
      = ["Best video stream index: 0", "Best video stream index: 1"]
    ∧ (analyze_path "sample.mkv" (.ok sample_container)).2 ≠ [] := by
  exact ⟨rfl, by decide⟩

/-- C5: for an entry whose file name is interpretable as text,
`should_inspect_file` returns `false` exactly when the entry is a directory
or its name ends with `.nfo`, and `true` for every other entry. -/
theorem c5_should_inspect_characterization (entry : DirEntry) (name : String)
    (hname : entry.file_name = some name) :
    (should_inspect_file entry = .ok false
        ↔ (entry.file_type_is_dir = true ∨ str_ends_with name ".nfo" = true))
    ∧ (should_inspect_file entry = .ok true
        ↔ (entry.file_type_is_dir = false ∧ str_ends_with name ".nfo" = false)) := by
  cases hdir : entry.file_type_is_dir
  · cases he : str_ends_with name ".nfo" <;>
      simp [should_inspect_file, hname, hdir, he]
  · simp [should_inspect_file, hname, hdir]

/-- Witness for C5: a `.nfo` file is rejected and an ordinary file is
accepted. -/
theorem c5_should_inspect_characterization_witness :
    should_inspect_file ⟨false, some "movie.nfo"⟩ = .ok false
    ∧ should_inspect_file ⟨false, some "movie.mkv"⟩ = .ok true :=
  ⟨(c5_should_inspect_characterization ⟨false, some "movie.nfo"⟩ "movie.nfo" rfl).1.mpr
      (Or.inr (by decide)),
   (c5_should_inspect_characterization ⟨false, some "movie.mkv"⟩ "movie.mkv" rfl).2.mpr
      ⟨rfl, by decide⟩⟩

/-- The collected result list keeps exactly the successful probes. -/
theorem length_filterMap_eq_length_filter (probe : String → Option String)
    (l : List String) :
    (l.filterMap probe).length = (l.filter (fun p => (probe p).isSome)).length := by
  induction l with
  | nil => rfl
  | cons a l ih =>
    cases h : probe a <;> simp [List.filterMap_cons, List.filter_cons, h, ih]

/-- When every probe succeeds, the collected result list is full length. -/
theorem length_filterMap_of_all_some (probe : String → Option String)
    (l : List String) (h : ∀ q ∈ l, (probe q).isSome = true) :
    (l.filterMap probe).length = l.length := by
  induction l with
  | nil => rfl
  | cons a l ih =>
    have ha := h a (List.mem_cons_self a l)
    cases hpa : probe a
    · rw [hpa] at ha
      simp at ha
    · simp [List.filterMap_cons, hpa,
        ih (fun q hq => h q (List.mem_cons_of_mem a hq))]

/-- C6: the report has exactly one block per candidate whose probe
succeeded; a candidate whose probe fails contributes nothing and does not
abort the rest, so one unparsable file among otherwise successful
candidates leaves exactly the successful blocks. -/
theorem c6_probe_failure_isolation :
    (∀ (probe : String → Option String) (paths : List String),
        (paths.filterMap probe).length
          = (paths.filter (fun p => (probe p).isSome)).length)
    ∧ (∀ (probe : String → Option String) (xs ys : List String) (p : String),
        probe p = none →
        ((xs ++ p :: ys).filterMap probe = (xs ++ ys).filterMap probe
            ∧ generate_report probe (xs ++ p :: ys)
                = generate_report probe (xs ++ ys))
          ∧ ((∀ q ∈ xs ++ ys, (probe q).isSome = true) →
              ((xs ++ p :: ys).filterMap probe).length
                = xs.length + ys.length)) := by
  constructor
  · exact fun probe paths => length_filterMap_eq_length_filter probe paths
  · intro probe xs ys p hfail
    have heq : (xs ++ p :: ys).filterMap probe = (xs ++ ys).filterMap probe := by
      simp [List.filterMap_append, List.filterMap_cons, hfail]
    refine ⟨⟨heq, ?_⟩, ?_⟩
    · simp [generate_report, heq]
    · intro hall
      rw [heq, length_filterMap_of_all_some probe (xs ++ ys) hall,
        List.length_append]

/-- A concrete probe outcome for the C6 witness: one path fails, the
others succeed. -/
def probe0 : String → Option String :=
  fun p => if p = "bad" then none else some ("ok: " ++ p)

/-- Witness for C6: with the failing path `"bad"` between successful paths,
the report equals the report without it and has exactly the successful
blocks. -/
theorem c6_probe_failure_isolation_witness :
    ((["a"] ++ "bad" :: ["b", "c"]).filterMap probe0
          = (["a"] ++ ["b", "c"]).filterMap probe0
        ∧ generate_report probe0 (["a"] ++ "bad" :: ["b", "c"])
            = generate_report probe0 (["a"] ++ ["b", "c"]))
      ∧ ((["a"] ++ "bad" :: ["b", "c"]).filterMap probe0).length
          = ["a"].length + ["b", "c"].length :=
  have h := c6_probe_failure_isolation.2 probe0 ["a"] ["b", "c"] "bad" (by decide)
  ⟨h.1, h.2 (by decide)⟩

/-- C7: for every successfully opened container a summary is produced, and
the summary is unchanged under any replacement of the declared MIME types —
the audio/video MIME check never gates the result. -/
theorem c7_mime_check_no_gate (path : String) (context : Container)
    (mts : List String) :
    (analyze_path path (.ok context)).1.isSome = true
    ∧ analyze_path path (.ok { context with mime_types := mts })
        = analyze_path path (.ok context) :=
  ⟨rfl, rfl⟩

/-- C8: the container duration in integer microseconds is converted into a
time span; a duration that is not representable as a non-negative count of
microseconds (a negative value, as ffmpeg's missing-duration sentinel is)
degrades to the zero span instead of failing. -/
theorem c8_duration_degrades (d : Int) :
    (d < 0 → duration_from_context d = ⟨0, 0⟩)
    ∧ (0 ≤ d →
        (duration_from_context d).secs = d.toNat / 1000000
        ∧ (duration_from_context d).nanos = d.toNat % 1000000 * 1000) := by
  constructor
  · intro h
    have h0 : d.toNat = 0 := Int.toNat_of_nonpos (le_of_lt h)
    simp [duration_from_context, Duration.from_micros, h0]
  · intro _
    exact ⟨rfl, rfl⟩

/-- Witness for C8: a negative duration becomes the zero span and a
positive one is converted by division. -/
theorem c8_duration_degrades_witness :
    duration_from_context (-5) = ⟨0, 0⟩
    ∧ (duration_from_context 2500000).secs = (2500000 : Int).toNat / 1000000 :=
  ⟨(c8_duration_degrades (-5)).1 (by decide),
   ((c8_duration_degrades 2500000).2 (by decide)).1⟩

/-- C9 counterexample: a directory entry whose name is not interpretable as
text is silently rejected (`Except.ok false`) — Rust's `&&` short-circuits
before the name is ever unwrapped — so it is not true that every entry with
a non-text name makes the filter propagate an error. -/
theorem c9_nontext_name_counterexample :
    (⟨true, none⟩ : DirEntry).file_name = none
    ∧ should_inspect_file ⟨true, none⟩ = .ok false :=
  ⟨rfl, rfl⟩

/-- C9 amended: for a non-directory entry whose file name is not
interpretable as text, the filter fails loudly with the unwrap panic
(modelled as a propagated error); for a directory entry with such a name
the directory test rejects it first and no error is raised. -/
theorem c9_nontext_name_amended (entry : DirEntry)
    (hname : entry.file_name = none) :
    (entry.file_type_is_dir = false →
        should_inspect_file entry
          = .error "called Option::unwrap() on a None value")
    ∧ (entry.file_type_is_dir = true → should_inspect_file entry = .ok false) := by
  constructor
  · intro hfalse
    simp [should_inspect_file, hname, hfalse]
  · intro htrue
    simp [should_inspect_file, hname, htrue]

/-- Witness for C9 (amended): a regular file with a non-text name makes the
filter fail with the unwrap panic message. -/
theorem c9_nontext_name_amended_witness :
    should_inspect_file ⟨false, none⟩
      = .error "called Option::unwrap() on a None value" :=
  (c9_nontext_name_amended ⟨false, none⟩ rfl).1 rfl

end MediaServerDiff
